import Mathlib

/-!
Verification development for the t-req example subprocess plugin
(src/examples/plugins/treq_plugin_env.py).

The plugin reads NDJSON messages from stdin and writes NDJSON responses to
stdout.  We embed the plugin shallowly:

* `JVal` models a parsed JSON value (numbers are modelled as integers; the
  example protocol only ever uses integral numbers).
* A Python dict that arose from JSON decoding is modelled as an association
  list `JObj` with unique keys maintained by `dictSet` (replace in place,
  append when new), matching CPython insertion-order semantics.
* External effects (os.environ, datetime.now, uuid.uuid4/uuid1,
  random.randint) are modelled by an explicit record `ExtWorld` holding the
  values the outside world supplies at one iteration of the read loop.
* Python operations that can raise (`int(x)`, `x[0]`, `len(x)`, `.get` on a
  non-dict, os.environ.get with a non-str key) are modelled in
  `Except String`, the string being the exception text (texts are kept
  close to CPython but not character-exact where irrelevant).
-/

inductive JVal where
  | jnull
  | jbool (b : Bool)
  | jnum (n : Int)
  | jstr (s : String)
  | jarr (xs : List JVal)
  | jobj (fields : List (String × JVal))

abbrev JObj := List (String × JVal)

/-- Python dict lookup on an association list: first binding wins. -/
def dictFind : JObj → String → Option JVal
  | [], _ => none
  | (k, v) :: rest, key => if k == key then some v else dictFind rest key

/-- Python `d.get(key, default)` on a dict. -/
def dictGetD (o : JObj) (k : String) (d : JVal) : JVal :=
  (dictFind o k).getD d

/-- Python `key in d` on a dict. -/
def dictContains (o : JObj) (k : String) : Bool :=
  (dictFind o k).isSome

/-- Python `d[key] = v`: replace the binding in place, else append. -/
def dictSet (o : JObj) (k : String) (v : JVal) : JObj :=
  if dictContains o k then o.map (fun p => if p.1 == k then (k, v) else p)
  else o ++ [(k, v)]

/-- Python `d.update(u)` for a dict argument. -/
def dictUpdate (o : JObj) (u : JObj) : JObj :=
  u.foldl (fun acc p => dictSet acc p.1 p.2) o

/-- Python truthiness of a JSON-derived value. -/
def truthy : JVal → Bool
  | .jnull => false
  | .jbool b => b
  | .jnum n => n != 0
  | .jstr s => !s.isEmpty
  | .jarr xs => !xs.isEmpty
  | .jobj fs => !fs.isEmpty

/-- Tests whether a value is the given Python string (Python `v == "lit"`:
false whenever `v` is not a string). -/
def isStr : JVal → String → Bool
  | .jstr s, t => s == t
  | _, _ => false

/-- Python `repr` of a JSON-derived value (string escaping inside `repr` of
container elements is not reproduced character-exactly; no theorem depends
on it). -/
def pyRepr : JVal → String
  | .jnull => "None"
  | .jbool true => "True"
  | .jbool false => "False"
  | .jnum n => toString n
  | .jstr s => "\x27" ++ s ++ "\x27"
  | .jarr xs => "[" ++ String.intercalate ", " (xs.attach.map fun x => pyRepr x.1) ++ "]"
  | .jobj fs =>
      "\x7b" ++
        String.intercalate ", "
          (fs.attach.map fun p => "\x27" ++ p.1.1 ++ "\x27: " ++ pyRepr p.1.2) ++
        "\x7d"
decreasing_by
  · have h := List.sizeOf_lt_of_mem x.2
    simp only [JVal.jarr.sizeOf_spec]
    omega
  · have h := List.sizeOf_lt_of_mem p.2
    have h2 : sizeOf p.1.2 < sizeOf p.1 := by
      cases _hp : p.1 with
      | mk a b => simp only [Prod.mk.sizeOf_spec]; omega
    simp only [JVal.jobj.sizeOf_spec]
    omega

/-- Python `str` of a JSON-derived value, as used in f-strings. -/
def pyStr : JVal → String
  | .jstr s => s
  | v => pyRepr v

/-- Decimal value of a list of digit characters. -/
def digitsVal (cs : List Char) : Nat :=
  cs.foldl (fun a c => a * 10 + (c.toNat - 48)) 0

/-- Python `int(s)` on a string: optional surrounding whitespace, optional
sign, then decimal digits (digit-group underscores are not modelled). -/
def pyIntOfStr (s : String) : Except String Int :=
  let t := ((s.data.dropWhile Char.isWhitespace).reverse.dropWhile Char.isWhitespace).reverse
  let err : Except String Int :=
    .error ("invalid literal for int() with base 10: \x27" ++ s ++ "\x27")
  match t with
  | [] => err
  | c :: rest =>
    let (neg, ds) :=
      if c = Char.ofNat 45 then (true, rest)
      else if c = Char.ofNat 43 then (false, rest)
      else (false, c :: rest)
    if ds.isEmpty || !ds.all Char.isDigit then err
    else .ok (if neg then -(digitsVal ds : Int) else (digitsVal ds : Int))

/-- Python `int(x)` on a JSON-derived value. -/
def pyInt : JVal → Except String Int
  | .jnum n => .ok n
  | .jbool b => .ok (if b then 1 else 0)
  | .jstr s => pyIntOfStr s
  | _ => .error "int() argument must be a string or a number"

/-- Python `x[0]`. -/
def pyIndex0 : JVal → Except String JVal
  | .jarr (x :: _) => .ok x
  | .jarr [] => .error "list index out of range"
  | .jstr s => if s.isEmpty then .error "string index out of range"
      else .ok (.jstr (s.take 1))
  | .jobj _ => .error "KeyError: 0"
  | _ => .error "object is not subscriptable"

/-- Python `x[1]`. -/
def pyIndex1 : JVal → Except String JVal
  | .jarr (_ :: x :: _) => .ok x
  | .jarr _ => .error "list index out of range"
  | .jstr s => if s.length < 2 then .error "string index out of range"
      else .ok (.jstr ((s.drop 1).take 1))
  | .jobj _ => .error "KeyError: 1"
  | _ => .error "object is not subscriptable"

/-- Python `len(x)`. -/
def pyLen : JVal → Except String Nat
  | .jstr s => .ok s.length
  | .jarr xs => .ok xs.length
  | .jobj fs => .ok fs.length
  | _ => .error "object has no len()"

/-- Python `x.get(key, default)` on an arbitrary value: AttributeError when
the receiver is not a dict. -/
def pyGet (v : JVal) (k : String) (d : JVal) : Except String JVal :=
  match v with
  | .jobj o => .ok (dictGetD o k d)
  | _ => .error "object has no attribute \x27get\x27"

/-- External state supplied by the world during one iteration of the read
loop: the environment, the current UTC time (microseconds since the Unix
epoch, the resolution of datetime), its ISO and strftime renderings, fresh
UUIDs, and the random generator.  The plugin draws at most one value of
each kind per message, so one record per line is fully general. -/
structure ExtWorld where
  env : String → Option String
  nowUs : Nat
  nowIso : String
  nowFmt : String → String
  uuid4 : String
  uuid1 : String
  rand : Int → Int → Int

/-- `os.environ.get(full_name, "")`: TypeError unless the key is a str. -/
def environGet (e : ExtWorld) : JVal → Except String String
  | .jstr s => .ok ((e.env s).getD "")
  | _ => .error "str expected, not a non-string key"

/-- The module-level `config = {"prefix": ""}`. -/
def initConfig : JObj := [("prefix", .jstr "")]

/-- The capability dict built by `handle_init`. -/
def initResult : JObj :=
  [ ("name", .jstr "treq-plugin-env"),
    ("version", .jstr "1.0.0"),
    ("protocolVersion", .jnum 1),
    ("capabilities", .jarr [.jstr "resolvers", .jstr "hooks"]),
    ("resolvers", .jarr [.jstr "$env", .jstr "$timestamp", .jstr "$uuid", .jstr "$randomInt"]),
    ("hooks", .jarr [.jstr "request.before"]),
    ("permissions", .jarr [.jstr "env"]) ]

/-- `handle_init`: update the mutable config from `msg["config"]` when that
field is truthy, return the capability dict.  Returns the new config
explicitly since the embedding is functional.  `config.update(x)` with a
truthy non-dict `x` raises in CPython (the exotic corner where `x` is a
sequence of key/value pairs is modelled as the same raise). -/
def handle_init (cfg : JObj) (msg : JObj) : Except String (JObj × JObj) := do
  let c := dictGetD msg "config" .jnull
  let cfg2 ←
    if truthy c then
      match c with
      | .jobj o => pure (dictUpdate cfg o)
      | _ => Except.error "cannot convert dictionary update sequence"
    else pure cfg
  pure (cfg2, initResult)

/-- `handle_resolver`: dispatch on `msg["name"]`. -/
def handle_resolver (cfg : JObj) (e : ExtWorld) (msg : JObj) : Except String JObj := do
  let name := dictGetD msg "name" (.jstr "")
  let args := dictGetD msg "args" (.jarr [])
  if isStr name "$env" then
    if !truthy args then pure [("value", .jstr "")]
    else do
      let varName ← pyIndex0 args
      let pfx := dictGetD cfg "prefix" (.jstr "")
      let fullName : JVal :=
        if truthy pfx then .jstr (pyStr pfx ++ pyStr varName) else varName
      let value ← environGet e fullName
      pure [("value", .jstr value)]
  else if isStr name "$timestamp" then do
    let fmt ← if truthy args then pyIndex0 args else pure (.jstr "iso")
    if isStr fmt "iso" then pure [("value", .jstr e.nowIso)]
    else if isStr fmt "unix" then pure [("value", .jstr (toString (e.nowUs / 1000000)))]
    else if isStr fmt "unix_ms" then pure [("value", .jstr (toString (e.nowUs / 1000)))]
    else
      match fmt with
      | .jstr f => pure [("value", .jstr (e.nowFmt f))]
      | _ => Except.error "strftime() argument 1 must be str"
  else if isStr name "$uuid" then do
    let version ← if truthy args then pyIndex0 args else pure (.jstr "4")
    if isStr version "4" then pure [("value", .jstr e.uuid4)]
    else if isStr version "1" then pure [("value", .jstr e.uuid1)]
    else pure [("value", .jstr e.uuid4)]
  else if isStr name "$randomInt" then do
    let nargs ← pyLen args
    let minV ← if nargs > 0 then do pyInt (← pyIndex0 args) else pure 0
    let maxV ← if nargs > 1 then do pyInt (← pyIndex1 args) else pure 1000000
    if minV > maxV then Except.error "empty range for randrange()"
    else pure [("value", .jstr (toString (e.rand minV maxV)))]
  else
    pure [("value", .jstr "")]

/-- `handle_hook`: for `request.before`, add `X-Correlation-ID` when absent
and set `X-Plugin` unconditionally; otherwise return the output unchanged.
Non-dict `output`/`request` raise AttributeError at `.get`; a non-dict
`headers` value always raises by the time of item assignment (the exact
CPython exception varies with the type; modelled as one error). -/
def handle_hook (e : ExtWorld) (msg : JObj) : Except String JObj := do
  let hookName := dictGetD msg "name" (.jstr "")
  let outputData := dictGetD msg "output" (.jobj [])
  if isStr hookName "request.before" then
    match outputData with
    | .jobj out =>
      match dictGetD out "request" (.jobj []) with
      | .jobj rq =>
        match dictGetD rq "headers" (.jobj []) with
        | .jobj hs =>
          let hs1 :=
            if dictContains hs "X-Correlation-ID" then hs
            else dictSet hs "X-Correlation-ID" (.jstr e.uuid4)
          let hs2 := dictSet hs1 "X-Plugin" (.jstr "treq-plugin-env/1.0.0")
          let rq2 := dictSet rq "headers" (.jobj hs2)
          let out2 := dictSet out "request" (.jobj rq2)
          pure [("output", .jobj out2)]
        | _ => Except.error "headers value does not support item assignment"
      | _ => Except.error "object has no attribute \x27get\x27"
    | _ => Except.error "object has no attribute \x27get\x27"
  else
    pure [("output", outputData)]

/-- `handle_event`: only logs; `event.get` raises when `msg["event"]` is a
truthy non-dict. -/
def handle_event (msg : JObj) : Except String Unit :=
  match dictGetD msg "event" (.jobj []) with
  | .jobj _ => .ok ()
  | _ => .error "object has no attribute \x27get\x27"

/-- One physical line of stdin after `line.strip()`: empty, not valid JSON
(json.loads raises), or a decoded JSON object.  Decoding itself is done by
the Python json library, outside this repository, so only its outcome is
modelled.  JSON lines decoding to a non-object crash the loop at
`msg.get("type", "")` (outside the try block) and are not needed by any
claim, so they are not represented. -/
inductive Line where
  | blank
  | malformed
  | msg (m : JObj)

/-- A response message `{"id": ..., "type": "response", "result": ...}`. -/
def respMsg (idv : JVal) (result : JObj) : JObj :=
  [("id", idv), ("type", .jstr "response"), ("result", .jobj result)]

/-- An error message
`{"id": ..., "type": "error", "error": {"message": ...}}`. -/
def errMsg (idv : JVal) (s : String) : JObj :=
  [("id", idv), ("type", .jstr "error"), ("error", .jobj [("message", .jstr s)])]

/-- Outcome of handling one decoded message: the config after the message
(the plugin mutates a module-level dict), the messages printed to stdout,
and whether the loop breaks (shutdown). -/
structure StepResult where
  config : JObj
  outs : List JObj
  halt : Bool

/-- The body of the `for line in sys.stdin` loop in `main`, for one decoded
object: dispatch on `msg.get("type", "")`, wrap handler exceptions into an
error message carrying `msg.get("id", "")`. -/
def processMsg (cfg : JObj) (e : ExtWorld) (m : JObj) : StepResult :=
  let msgType := dictGetD m "type" (.jstr "")
  let msgId := dictGetD m "id" (.jstr "")
  if isStr msgType "init" then
    match handle_init cfg m with
    | .ok (cfg2, result) => ⟨cfg2, [respMsg msgId result], false⟩
    | .error s => ⟨cfg, [errMsg msgId s], false⟩
  else if isStr msgType "resolver" then
    match handle_resolver cfg e m with
    | .ok result => ⟨cfg, [respMsg msgId result], false⟩
    | .error s => ⟨cfg, [errMsg msgId s], false⟩
  else if isStr msgType "hook" then
    match handle_hook e m with
    | .ok result => ⟨cfg, [respMsg msgId result], false⟩
    | .error s => ⟨cfg, [errMsg msgId s], false⟩
  else if isStr msgType "event" then
    match handle_event m with
    | .ok _ => ⟨cfg, [], false⟩
    | .error s => ⟨cfg, [errMsg msgId s], false⟩
  else if isStr msgType "shutdown" then ⟨cfg, [], true⟩
  else
    ⟨cfg, [errMsg msgId ("Unknown message type: " ++ pyStr msgType)], false⟩

/-- The `main` read loop over decoded stdin lines, each paired with the
external state at its processing time; returns everything printed to
stdout, in order. -/
def mainLoop (cfg : JObj) : List (Line × ExtWorld) → List JObj
  | [] => []
  | (Line.blank, _) :: rest => mainLoop cfg rest
  | (Line.malformed, _) :: rest => mainLoop cfg rest
  | (Line.msg m, e) :: rest =>
    let r := processMsg cfg e m
    r.outs ++ (if r.halt then [] else mainLoop r.config rest)

/-- Splits a character list at dashes. -/
def splitDash : List Char → List (List Char)
  | [] => [[]]
  | c :: rest =>
    match splitDash rest with
    | [] => [[]]
    | g :: gs => if c = Char.ofNat 45 then [] :: g :: gs else (c :: g) :: gs

/-- A UUID rendering as produced by str(uuid.uuid4()): five dash-separated
groups of lowercase hex digits with lengths 8-4-4-4-12. -/
def isUuidFormat (s : String) : Bool :=
  ((splitDash s.data).map List.length == [8, 4, 4, 4, 12]) &&
    s.data.all (fun c =>
      c.isDigit || (Char.ofNat 97 ≤ c && c ≤ Char.ofNat 102) || c = Char.ofNat 45)

/-- Extracts `result["output"]["request"]["headers"]` from a hook handler
outcome, when each level is present and an object. -/
def hookResultHeaders (r : Except String JObj) : Option JObj :=
  match r with
  | .ok res =>
    match dictFind res "output" with
    | some (.jobj out) =>
      match dictFind out "request" with
      | some (.jobj rq) =>
        match dictFind rq "headers" with
        | some (.jobj hs) => some hs
        | _ => none
      | _ => none
    | _ => none
  | .error _ => none

/-- The config dict after an init whose config object is exactly
`{"prefix": P}`. -/
def afterInitCfg (P : String) : JObj :=
  dictUpdate initConfig [("prefix", .jstr P)]

/-- A concrete external state used by witnesses. -/
def ext0 : ExtWorld :=
  { env := fun k => if k = "TREQ_API_KEY" then some "sek" else none
    nowUs := 1700000000123456
    nowIso := "2023-11-14T22:13:20.123456+00:00"
    nowFmt := fun _ => ""
    uuid4 := "123e4567-e89b-12d3-a456-426614174000"
    uuid1 := "11111111-2222-3333-4444-555555555555"
    rand := fun a _ => a }

/-- A later external state: 5 ms after `ext0`. -/
def ext1 : ExtWorld := { ext0 with nowUs := 1700000000128456 }

/-- A message whose type is recognized by no branch and that carries no id. -/
def mUnknown : JObj := [("type", .jstr "frobnicate")]

/-- An unknown-type message that does carry an id. -/
def mW5 : JObj := [("type", .jstr "zzz"), ("id", .jstr "w5")]

/-- A resolver request that makes its handler raise: int("abc"). -/
def mW1 : JObj :=
  [("type", .jstr "resolver"), ("id", .jstr "w1"),
   ("name", .jstr "$randomInt"), ("args", .jarr [.jstr "abc"])]

/-- Incoming headers that already carry an X-Plugin entry. -/
def hsPre : JObj := [("X-Plugin", .jstr "other"), ("A", .jstr "b")]

/-- A request.before hook message whose headers already carry X-Plugin. -/
def mHookPre : JObj :=
  [("type", .jstr "hook"), ("id", .jstr "h1"), ("name", .jstr "request.before"),
   ("output", .jobj [("request", .jobj [("headers", .jobj hsPre)])])]

/-- A request.before hook message with one plain pre-existing header. -/
def mHookW : JObj :=
  [("type", .jstr "hook"), ("id", .jstr "h2"), ("name", .jstr "request.before"),
   ("output", .jobj [("request", .jobj [("headers", .jobj [("A", .jstr "b")])])])]

/-- An init message supplying config prefix TREQ_. -/
def mInitW : JObj :=
  [("type", .jstr "init"), ("id", .jstr "w4"),
   ("config", .jobj [("prefix", .jstr "TREQ_")])]

/-- A resolver request naming an unregistered resolver. -/
def mResW : JObj :=
  [("type", .jstr "resolver"), ("id", .jstr "w6"), ("name", .jstr "$foo")]

/-- A well-shaped event message. -/
def mEventW : JObj :=
  [("type", .jstr "event"),
   ("event", .jobj [("type", .jstr "fetchStarted"), ("url", .jstr "http://x")])]

/-- A $timestamp("unix_ms") resolver request. -/
def mTs : JObj :=
  [("type", .jstr "resolver"), ("id", .jstr "w8"),
   ("name", .jstr "$timestamp"), ("args", .jarr [.jstr "unix_ms"])]

/-- A $env resolver request with no arguments. -/
def mEnv0 : JObj :=
  [("type", .jstr "resolver"), ("id", .jstr "w10a"),
   ("name", .jstr "$env"), ("args", .jarr [])]

/-- A $env resolver request for API_KEY. -/
def mEnvN : JObj :=
  [("type", .jstr "resolver"), ("id", .jstr "w10b"),
   ("name", .jstr "$env"), ("args", .jarr [.jstr "API_KEY"])]

theorem isStr_iff (v : JVal) (t : String) : isStr v t = true ↔ v = .jstr t := by
  cases v <;> simp [isStr]

theorem isStr_eq_false_of {v : JVal} {t : String} (h : ∀ s, v = .jstr s → s ≠ t) :
    isStr v t = false := by
  cases v <;> simp [isStr]
  rename_i s
  exact h s rfl

theorem mainLoop_cons_msg (cfg : JObj) (e : ExtWorld) (m : JObj)
    (rest : List (Line × ExtWorld)) :
    mainLoop cfg ((Line.msg m, e) :: rest) =
      (processMsg cfg e m).outs ++
        (if (processMsg cfg e m).halt then [] else mainLoop (processMsg cfg e m).config rest) := rfl

theorem processMsg_init (cfg : JObj) (e : ExtWorld) (m : JObj)
    (ht : dictGetD m "type" (.jstr "") = .jstr "init") :
    processMsg cfg e m =
      (match handle_init cfg m with
      | .ok (cfg2, result) => ⟨cfg2, [respMsg (dictGetD m "id" (.jstr "")) result], false⟩
      | .error s => ⟨cfg, [errMsg (dictGetD m "id" (.jstr "")) s], false⟩) := by
  simp [processMsg, ht, isStr]

theorem processMsg_resolver (cfg : JObj) (e : ExtWorld) (m : JObj)
    (ht : dictGetD m "type" (.jstr "") = .jstr "resolver") :
    processMsg cfg e m =
      (match handle_resolver cfg e m with
      | .ok result => ⟨cfg, [respMsg (dictGetD m "id" (.jstr "")) result], false⟩
      | .error s => ⟨cfg, [errMsg (dictGetD m "id" (.jstr "")) s], false⟩) := by
  simp [processMsg, ht, isStr]

theorem processMsg_hook (cfg : JObj) (e : ExtWorld) (m : JObj)
    (ht : dictGetD m "type" (.jstr "") = .jstr "hook") :
    processMsg cfg e m =
      (match handle_hook e m with
      | .ok result => ⟨cfg, [respMsg (dictGetD m "id" (.jstr "")) result], false⟩
      | .error s => ⟨cfg, [errMsg (dictGetD m "id" (.jstr "")) s], false⟩) := by
  simp [processMsg, ht, isStr]

theorem processMsg_event (cfg : JObj) (e : ExtWorld) (m : JObj)
    (ht : dictGetD m "type" (.jstr "") = .jstr "event") :
    processMsg cfg e m =
      (match handle_event m with
      | .ok _ => ⟨cfg, [], false⟩
      | .error s => ⟨cfg, [errMsg (dictGetD m "id" (.jstr "")) s], false⟩) := by
  simp [processMsg, ht, isStr]

theorem processMsg_unknown (cfg : JObj) (e : ExtWorld) (m : JObj)
    (h : ∀ s, dictGetD m "type" (.jstr "") = .jstr s →
      s ∉ (["init", "resolver", "hook", "event", "shutdown"] : List String)) :
    processMsg cfg e m =
      ⟨cfg, [errMsg (dictGetD m "id" (.jstr ""))
        ("Unknown message type: " ++ pyStr (dictGetD m "type" (.jstr "")))], false⟩ := by
  have h1 : isStr (dictGetD m "type" (.jstr "")) "init" = false :=
    isStr_eq_false_of (fun s hs => by have := h s hs; simp at this; exact this.1)
  have h2 : isStr (dictGetD m "type" (.jstr "")) "resolver" = false :=
    isStr_eq_false_of (fun s hs => by have := h s hs; simp at this; exact this.2.1)
  have h3 : isStr (dictGetD m "type" (.jstr "")) "hook" = false :=
    isStr_eq_false_of (fun s hs => by have := h s hs; simp at this; exact this.2.2.1)
  have h4 : isStr (dictGetD m "type" (.jstr "")) "event" = false :=
    isStr_eq_false_of (fun s hs => by have := h s hs; simp at this; exact this.2.2.2.1)
  have h5 : isStr (dictGetD m "type" (.jstr "")) "shutdown" = false :=
    isStr_eq_false_of (fun s hs => by have := h s hs; simp at this; exact this.2.2.2.2)
  simp [processMsg, h1, h2, h3, h4, h5]

theorem dictFind_append_right (o l : JObj) (k : String) (h : dictFind o k = none) :
    dictFind (o ++ l) k = dictFind l k := by
  induction o with
  | nil => rfl
  | cons p rest ih =>
    cases p with
    | mk k1 v1 =>
      by_cases hk : k1 = k
      · simp [dictFind, hk] at h
      · simp only [dictFind, List.cons_append] at h ⊢
        simp only [beq_eq_false_iff_ne, ne_eq, hk, not_false_eq_true, if_neg,
          beq_iff_eq] at h ⊢
        exact ih h

theorem dictFind_append_single_ne (o : JObj) (k : String) (v : JVal) (k2 : String)
    (h : k2 ≠ k) :
    dictFind (o ++ [(k, v)]) k2 = dictFind o k2 := by
  induction o with
  | nil => simp [dictFind, Ne.symm h]
  | cons p rest ih =>
    cases p with
    | mk k1 v1 =>
      by_cases hk : k1 = k2 <;> simp [dictFind, hk, ih]

theorem dictFind_mapSet_self (o : JObj) (k : String) (v : JVal)
    (h : dictContains o k = true) :
    dictFind (o.map (fun p => if p.1 == k then (k, v) else p)) k = some v := by
  induction o with
  | nil => simp [dictContains, dictFind] at h
  | cons p rest ih =>
    cases p with
    | mk k1 v1 =>
      simp only [List.map_cons]
      by_cases hk : k1 = k
      · subst hk
        rw [if_pos (by simp)]
        simp only [dictFind]
        rw [if_pos (by simp)]
      · rw [if_neg (by simp [hk])]
        have h2 : dictContains rest k = true := by
          simpa [dictContains, dictFind, hk] using h
        simp only [dictFind]
        rw [if_neg (by simp [hk])]
        exact ih h2

theorem dictFind_mapSet_ne (o : JObj) (k : String) (v : JVal) (k2 : String)
    (h : k2 ≠ k) :
    dictFind (o.map (fun p => if p.1 == k then (k, v) else p)) k2 = dictFind o k2 := by
  induction o with
  | nil => rfl
  | cons p rest ih =>
    cases p with
    | mk k1 v1 =>
      simp only [List.map_cons]
      by_cases hk : k1 = k
      · subst hk
        rw [if_pos (by simp)]
        simp only [dictFind]
        rw [if_neg (by simp [Ne.symm h]), if_neg (by simp [Ne.symm h])]
        exact ih
      · rw [if_neg (by simp [hk])]
        simp only [dictFind]
        rw [ih]

theorem dictFind_dictSet_self (o : JObj) (k : String) (v : JVal) :
    dictFind (dictSet o k v) k = some v := by
  rw [dictSet]
  split
  · exact dictFind_mapSet_self _ _ _ (by assumption)
  · rename_i h
    have h0 : dictFind o k = none := by
      cases hf : dictFind o k
      · rfl
      · simp [dictContains, hf] at h
    rw [dictFind_append_right _ _ _ h0]
    simp [dictFind]

theorem dictFind_dictSet_ne (o : JObj) (k : String) (v : JVal) (k2 : String)
    (h : k2 ≠ k) :
    dictFind (dictSet o k v) k2 = dictFind o k2 := by
  rw [dictSet]
  split
  · exact dictFind_mapSet_ne _ _ _ _ h
  · exact dictFind_append_single_ne _ _ _ _ h

theorem toDigitsCore_all_digits (f : Nat) : ∀ (n : Nat) (ds : List Char),
    ds.all Char.isDigit = true → (Nat.toDigitsCore 10 f n ds).all Char.isDigit = true := by
  have hall : ∀ m ∈ Finset.range 10, (Nat.digitChar m).isDigit = true := by decide
  induction f with
  | zero => intro n ds hds; simpa [Nat.toDigitsCore] using hds
  | succ f ih =>
    intro n ds hds
    have hd := hall (n % 10) (Finset.mem_range.mpr (Nat.mod_lt _ (by norm_num)))
    simp only [Nat.toDigitsCore]
    split
    · simp [hd, hds]
    · exact ih _ _ (by simp [hd, hds])

theorem natRepr_all_digits (n : Nat) : (Nat.repr n).data.all Char.isDigit = true := by
  rw [Nat.repr, Nat.toDigits]
  exact toDigitsCore_all_digits _ _ _ rfl

/-- C1: for an incoming init, resolver, or hook message whose handler
raises, the plugin writes exactly one error-type message carrying that
message's id and the exception text as error.message, and the read loop
continues with the remaining lines instead of exiting. -/
theorem handler_exception_isolated
    (cfg : JObj) (e : ExtWorld) (m : JObj) (rest : List (Line × ExtWorld)) (s : String)
    (h : (dictGetD m "type" (.jstr "") = .jstr "init" ∧ handle_init cfg m = .error s) ∨
         (dictGetD m "type" (.jstr "") = .jstr "resolver" ∧ handle_resolver cfg e m = .error s) ∨
         (dictGetD m "type" (.jstr "") = .jstr "hook" ∧ handle_hook e m = .error s)) :
    mainLoop cfg ((Line.msg m, e) :: rest) =
      errMsg (dictGetD m "id" (.jstr "")) s :: mainLoop cfg rest := by
  rcases h with ⟨ht, he⟩ | ⟨ht, he⟩ | ⟨ht, he⟩
  · rw [mainLoop_cons_msg, processMsg_init cfg e m ht, he]
    simp
  · rw [mainLoop_cons_msg, processMsg_resolver cfg e m ht, he]
    simp
  · rw [mainLoop_cons_msg, processMsg_hook cfg e m ht, he]
    simp

/-- C1 witness: a $randomInt resolver call whose argument is not a numeral
makes int() raise; the plugin answers with an error message and keeps
reading. -/
theorem handler_exception_isolated_witness :
    mainLoop initConfig [(Line.msg mW1, ext0)] =
      errMsg (.jstr "w1") "invalid literal for int() with base 10: \x27abc\x27" ::
        mainLoop initConfig [] :=
  handler_exception_isolated initConfig ext0 mW1 [] _ (Or.inr (Or.inl ⟨rfl, rfl⟩))

/-- C3: a stdin line that is not well-formed JSON produces no output at all
and the loop goes on; in particular a valid message right after it is
answered exactly as if the malformed line had never arrived. -/
theorem malformed_line_skipped (cfg : JObj) (e e2 : ExtWorld) (m : JObj)
    (rest : List (Line × ExtWorld)) :
    mainLoop cfg ((Line.malformed, e) :: rest) = mainLoop cfg rest ∧
    mainLoop cfg ((Line.malformed, e) :: (Line.msg m, e2) :: rest) =
      mainLoop cfg ((Line.msg m, e2) :: rest) :=
  ⟨rfl, rfl⟩

/-- C5 counterexample: a message of unknown type carrying no id field is
not dropped: the plugin still answers, with an error message whose id is
the empty string. -/
theorem unknown_type_no_id_answered_not_dropped :
    dictFind mUnknown "id" = none ∧
    mainLoop initConfig [(Line.msg mUnknown, ext0)] =
      [errMsg (.jstr "") "Unknown message type: frobnicate"] ∧
    mainLoop initConfig [(Line.msg mUnknown, ext0)] ≠ [] := by
  refine ⟨rfl, rfl, ?_⟩
  rw [show mainLoop initConfig [(Line.msg mUnknown, ext0)] =
    [errMsg (.jstr "") "Unknown message type: frobnicate"] from rfl]
  simp

/-- C5 amended: for every incoming message whose type is none of init,
resolver, hook, event, shutdown, the plugin responds with an error-type
message carrying the incoming id, or the empty string as id when the
message has no id; such messages are never dropped. -/
theorem unknown_type_error_echoes_id_or_empty
    (cfg : JObj) (e : ExtWorld) (m : JObj) (rest : List (Line × ExtWorld))
    (h : ∀ s, dictGetD m "type" (.jstr "") = .jstr s →
      s ∉ (["init", "resolver", "hook", "event", "shutdown"] : List String)) :
    mainLoop cfg ((Line.msg m, e) :: rest) =
      errMsg (dictGetD m "id" (.jstr ""))
        ("Unknown message type: " ++ pyStr (dictGetD m "type" (.jstr ""))) ::
        mainLoop cfg rest := by
  rw [mainLoop_cons_msg, processMsg_unknown cfg e m h]
  simp

/-- C5 amended witness: an unknown-type message with id w5 is answered by
an error message with id w5. -/
theorem unknown_type_error_echoes_id_or_empty_witness :
    mainLoop initConfig [(Line.msg mW5, ext0)] =
      errMsg (.jstr "w5") "Unknown message type: zzz" :: mainLoop initConfig [] :=
  unknown_type_error_echoes_id_or_empty initConfig ext0 mW5 [] (by
    intro s hs
    rw [show dictGetD mW5 "type" (.jstr "") = .jstr "zzz" from rfl] at hs
    injection hs with h2
    subst h2
    decide)

/-- C6: a resolver request whose name is none of $env, $timestamp, $uuid,
$randomInt is answered with a normal response whose result value is the
empty string, not with an error. -/
theorem unregistered_resolver_empty_value
    (cfg : JObj) (e : ExtWorld) (m : JObj) (rest : List (Line × ExtWorld))
    (ht : dictGetD m "type" (.jstr "") = .jstr "resolver")
    (hn : ∀ s, dictGetD m "name" (.jstr "") = .jstr s →
      s ∉ (["$env", "$timestamp", "$uuid", "$randomInt"] : List String)) :
    handle_resolver cfg e m = .ok [("value", .jstr "")] ∧
    mainLoop cfg ((Line.msg m, e) :: rest) =
      respMsg (dictGetD m "id" (.jstr "")) [("value", .jstr "")] ::
        mainLoop cfg rest := by
  have h1 : isStr (dictGetD m "name" (.jstr "")) "$env" = false :=
    isStr_eq_false_of (fun s hs => by have := hn s hs; simp at this; exact this.1)
  have h2 : isStr (dictGetD m "name" (.jstr "")) "$timestamp" = false :=
    isStr_eq_false_of (fun s hs => by have := hn s hs; simp at this; exact this.2.1)
  have h3 : isStr (dictGetD m "name" (.jstr "")) "$uuid" = false :=
    isStr_eq_false_of (fun s hs => by have := hn s hs; simp at this; exact this.2.2.1)
  have h4 : isStr (dictGetD m "name" (.jstr "")) "$randomInt" = false :=
    isStr_eq_false_of (fun s hs => by have := hn s hs; simp at this; exact this.2.2.2)
  have hr : handle_resolver cfg e m = .ok [("value", .jstr "")] := by
    simp [handle_resolver, h1, h2, h3, h4]
    rfl
  refine ⟨hr, ?_⟩
  rw [mainLoop_cons_msg, processMsg_resolver cfg e m ht, hr]
  simp

/-- C6 witness: the unregistered resolver $foo resolves to the empty
string via a normal response. -/
theorem unregistered_resolver_empty_value_witness :
    handle_resolver initConfig ext0 mResW = .ok [("value", .jstr "")] ∧
    mainLoop initConfig [(Line.msg mResW, ext0)] =
      respMsg (.jstr "w6") [("value", .jstr "")] :: mainLoop initConfig [] :=
  unregistered_resolver_empty_value initConfig ext0 mResW [] rfl (by
    intro s hs
    rw [show dictGetD mResW "name" (.jstr "") = .jstr "$foo" from rfl] at hs
    injection hs with h2
    subst h2
    decide)

/-- C7: an event message whose event field (if present) is an object is
handled without writing anything to stdout, and the loop continues. -/
theorem event_message_no_output
    (cfg : JObj) (e : ExtWorld) (m : JObj) (rest : List (Line × ExtWorld))
    (ht : dictGetD m "type" (.jstr "") = .jstr "event")
    (hev : ∃ o, dictGetD m "event" (.jobj []) = .jobj o) :
    mainLoop cfg ((Line.msg m, e) :: rest) = mainLoop cfg rest := by
  obtain ⟨o, ho⟩ := hev
  have he : handle_event m = .ok () := by simp [handle_event, ho]
  rw [mainLoop_cons_msg, processMsg_event cfg e m ht, he]
  simp

/-- C7 witness: a fetchStarted event produces no stdout message. -/
theorem event_message_no_output_witness :
    mainLoop initConfig [(Line.msg mEventW, ext0)] = mainLoop initConfig [] :=
  event_message_no_output initConfig ext0 mEventW [] rfl
    ⟨[("type", .jstr "fetchStarted"), ("url", .jstr "http://x")], rfl⟩

/-- C9: every message the loop body emits for an incoming message carries
an id field equal to the incoming id, the empty string standing in when
the incoming message has none; no emitted message carries any other id. -/
theorem stdout_id_echoes_incoming (cfg : JObj) (e : ExtWorld) (m : JObj) (out : JObj)
    (h : out ∈ (processMsg cfg e m).outs) :
    dictFind out "id" = some (dictGetD m "id" (.jstr "")) := by
  simp only [processMsg] at h
  split_ifs at h <;> (try split at h) <;> simp_all [respMsg, errMsg, dictFind]

/-- C9 witness: the reply to an unknown-type message carries exactly the
incoming id. -/
theorem stdout_id_echoes_incoming_witness :
    dictFind (errMsg (.jstr "w5") "Unknown message type: zzz") "id" =
      some (dictGetD mW5 "id" (.jstr "")) :=
  stdout_id_echoes_incoming initConfig ext0 mW5 _ (by
    rw [show (processMsg initConfig ext0 mW5).outs =
      [errMsg (.jstr "w5") "Unknown message type: zzz"] from rfl]
    exact List.mem_singleton.mpr rfl)

/-- C4: every init message whose config field, when truthy, is an object
(the protocol shape) is answered by exactly one response carrying the same
id, whose result declares name, version, protocolVersion 1, capabilities
resolvers+hooks, the four resolvers, the request.before hook, and the env
permission. -/
theorem init_answered_with_capabilities
    (cfg : JObj) (e : ExtWorld) (m : JObj) (rest : List (Line × ExtWorld))
    (ht : dictGetD m "type" (.jstr "") = .jstr "init")
    (hc : truthy (dictGetD m "config" .jnull) = true →
      ∃ o, dictGetD m "config" .jnull = .jobj o) :
    ∃ cfg2, handle_init cfg m = .ok (cfg2, initResult) ∧
      mainLoop cfg ((Line.msg m, e) :: rest) =
        respMsg (dictGetD m "id" (.jstr "")) initResult :: mainLoop cfg2 rest ∧
      dictFind initResult "name" = some (.jstr "treq-plugin-env") ∧
      dictFind initResult "version" = some (.jstr "1.0.0") ∧
      dictFind initResult "protocolVersion" = some (.jnum 1) ∧
      dictFind initResult "capabilities" = some (.jarr [.jstr "resolvers", .jstr "hooks"]) ∧
      dictFind initResult "resolvers" =
        some (.jarr [.jstr "$env", .jstr "$timestamp", .jstr "$uuid", .jstr "$randomInt"]) ∧
      dictFind initResult "hooks" = some (.jarr [.jstr "request.before"]) ∧
      dictFind initResult "permissions" = some (.jarr [.jstr "env"]) := by
  have hinit : ∃ cfg2, handle_init cfg m = .ok (cfg2, initResult) := by
    by_cases htr : truthy (dictGetD m "config" .jnull) = true
    · obtain ⟨o, ho⟩ := hc htr
      refine ⟨dictUpdate cfg o, ?_⟩
      have htro : truthy (.jobj o) = true := by rw [← ho]; exact htr
      simp [handle_init, ho, htro]
      rfl
    · refine ⟨cfg, ?_⟩
      simp [handle_init, htr]
      rfl
  obtain ⟨cfg2, h2⟩ := hinit
  refine ⟨cfg2, h2, ?_, rfl, rfl, rfl, rfl, rfl, rfl, rfl⟩
  rw [mainLoop_cons_msg, processMsg_init cfg e m ht, h2]
  simp

/-- C4 witness: the init message with config prefix TREQ_ is answered by
the capability response with the same id. -/
theorem init_answered_with_capabilities_witness :
    ∃ cfg2, handle_init initConfig mInitW = .ok (cfg2, initResult) ∧
      mainLoop initConfig [(Line.msg mInitW, ext0)] =
        respMsg (dictGetD mInitW "id" (.jstr "")) initResult :: mainLoop cfg2 [] ∧
      dictFind initResult "name" = some (.jstr "treq-plugin-env") ∧
      dictFind initResult "version" = some (.jstr "1.0.0") ∧
      dictFind initResult "protocolVersion" = some (.jnum 1) ∧
      dictFind initResult "capabilities" = some (.jarr [.jstr "resolvers", .jstr "hooks"]) ∧
      dictFind initResult "resolvers" =
        some (.jarr [.jstr "$env", .jstr "$timestamp", .jstr "$uuid", .jstr "$randomInt"]) ∧
      dictFind initResult "hooks" = some (.jarr [.jstr "request.before"]) ∧
      dictFind initResult "permissions" = some (.jarr [.jstr "env"]) :=
  init_answered_with_capabilities initConfig ext0 mInitW [] rfl
    (fun _ => ⟨[("prefix", .jstr "TREQ_")], rfl⟩)

/-- C2 counterexample: a request.before invocation whose incoming headers
already carry X-Plugin (and no X-Correlation-ID) does not preserve all
pre-existing headers: the X-Plugin value is overwritten. -/
theorem request_before_overwrites_xplugin :
    dictFind hsPre "X-Plugin" = some (.jstr "other") ∧
    dictContains hsPre "X-Correlation-ID" = false ∧
    hookResultHeaders (handle_hook ext0 mHookPre) =
      some [("X-Plugin", .jstr "treq-plugin-env/1.0.0"), ("A", .jstr "b"),
            ("X-Correlation-ID", .jstr "123e4567-e89b-12d3-a456-426614174000")] ∧
    ¬ (∀ k v, dictFind hsPre k = some v →
        ∀ hs2, hookResultHeaders (handle_hook ext0 mHookPre) = some hs2 →
          dictFind hs2 k = some v) := by
  refine ⟨rfl, rfl, rfl, ?_⟩
  intro hall
  have h := hall "X-Plugin" (.jstr "other") rfl
    [("X-Plugin", .jstr "treq-plugin-env/1.0.0"), ("A", .jstr "b"),
     ("X-Correlation-ID", .jstr "123e4567-e89b-12d3-a456-426614174000")] rfl
  rw [show dictFind
    [("X-Plugin", JVal.jstr "treq-plugin-env/1.0.0"), ("A", JVal.jstr "b"),
     ("X-Correlation-ID", JVal.jstr "123e4567-e89b-12d3-a456-426614174000")] "X-Plugin" =
      some (.jstr "treq-plugin-env/1.0.0") from rfl] at h
  injection h with h2
  injection h2 with h3
  exact absurd h3 (by decide)

/-- C2 amended: a request.before invocation on an output whose request
headers lack X-Correlation-ID yields headers carrying X-Correlation-ID
(the freshly generated UUID string) and X-Plugin, and every pre-existing
header other than X-Plugin is preserved unchanged (a pre-existing X-Plugin
value is overwritten with the plugin identification). -/
theorem request_before_adds_ids_preserves_others
    (e : ExtWorld) (m : JObj) (out rq hs : JObj)
    (hname : dictGetD m "name" (.jstr "") = .jstr "request.before")
    (hout : dictGetD m "output" (.jobj []) = .jobj out)
    (hrq : dictGetD out "request" (.jobj []) = .jobj rq)
    (hhs : dictGetD rq "headers" (.jobj []) = .jobj hs)
    (hnc : dictContains hs "X-Correlation-ID" = false)
    (hu : isUuidFormat e.uuid4 = true) :
    ∃ hs2, hookResultHeaders (handle_hook e m) = some hs2 ∧
      dictFind hs2 "X-Correlation-ID" = some (.jstr e.uuid4) ∧
      (∃ u, dictFind hs2 "X-Correlation-ID" = some (.jstr u) ∧ isUuidFormat u = true) ∧
      dictFind hs2 "X-Plugin" = some (.jstr "treq-plugin-env/1.0.0") ∧
      (∀ k v, dictFind hs k = some v → k ≠ "X-Plugin" → dictFind hs2 k = some v) := by
  have hh : handle_hook e m =
      .ok [("output", .jobj (dictSet out "request" (.jobj (dictSet rq "headers" (.jobj
        (dictSet (dictSet hs "X-Correlation-ID" (.jstr e.uuid4)) "X-Plugin"
          (.jstr "treq-plugin-env/1.0.0")))))))] := by
    simp [handle_hook, hname, hout, hrq, hhs, hnc, isStr]
    rfl
  have hH : hookResultHeaders (handle_hook e m) =
      some (dictSet (dictSet hs "X-Correlation-ID" (.jstr e.uuid4)) "X-Plugin"
        (.jstr "treq-plugin-env/1.0.0")) := by
    rw [hh]
    simp [hookResultHeaders, dictFind, dictFind_dictSet_self]
  have hc1 : dictFind (dictSet (dictSet hs "X-Correlation-ID" (.jstr e.uuid4)) "X-Plugin"
      (.jstr "treq-plugin-env/1.0.0")) "X-Correlation-ID" = some (.jstr e.uuid4) := by
    rw [dictFind_dictSet_ne _ _ _ _ (by decide), dictFind_dictSet_self]
  refine ⟨_, hH, hc1, ⟨e.uuid4, hc1, hu⟩, dictFind_dictSet_self _ _ _, ?_⟩
  intro k v hk hkp
  have hkc : k ≠ "X-Correlation-ID" := by
    intro hkk
    rw [hkk] at hk
    simp [dictContains, hk] at hnc
  rw [dictFind_dictSet_ne _ _ _ _ hkp, dictFind_dictSet_ne _ _ _ _ hkc]
  exact hk

/-- C2 amended witness: on headers carrying only A, the hook adds a
well-formed X-Correlation-ID and X-Plugin and keeps A. -/
theorem request_before_adds_ids_preserves_others_witness :
    ∃ hs2, hookResultHeaders (handle_hook ext0 mHookW) = some hs2 ∧
      dictFind hs2 "X-Correlation-ID" = some (.jstr ext0.uuid4) ∧
      (∃ u, dictFind hs2 "X-Correlation-ID" = some (.jstr u) ∧ isUuidFormat u = true) ∧
      dictFind hs2 "X-Plugin" = some (.jstr "treq-plugin-env/1.0.0") ∧
      (∀ k v, dictFind [(("A" : String), JVal.jstr "b")] k = some v → k ≠ "X-Plugin" →
        dictFind hs2 k = some v) :=
  request_before_adds_ids_preserves_others ext0 mHookW
    [("request", .jobj [("headers", .jobj [("A", .jstr "b")])])]
    [("headers", .jobj [("A", .jstr "b")])]
    [("A", .jstr "b")] rfl rfl rfl rfl rfl rfl

/-- C8: $timestamp("unix_ms") answers with the decimal numeral (all digit
characters) of the whole number of milliseconds since the Unix epoch at
the time of the call; across two calls at least one millisecond apart the
value strictly increases. -/
theorem timestamp_unix_ms_monotonic
    (cfg1 cfg2 : JObj) (e1 e2 : ExtWorld) (m1 m2 : JObj)
    (hn1 : dictGetD m1 "name" (.jstr "") = .jstr "$timestamp")
    (ha1 : dictGetD m1 "args" (.jarr []) = .jarr [.jstr "unix_ms"])
    (hn2 : dictGetD m2 "name" (.jstr "") = .jstr "$timestamp")
    (ha2 : dictGetD m2 "args" (.jarr []) = .jarr [.jstr "unix_ms"])
    (hdelay : e1.nowUs + 1000 ≤ e2.nowUs) :
    handle_resolver cfg1 e1 m1 = .ok [("value", .jstr (toString (e1.nowUs / 1000)))] ∧
    handle_resolver cfg2 e2 m2 = .ok [("value", .jstr (toString (e2.nowUs / 1000)))] ∧
    (toString (e1.nowUs / 1000)).data.all Char.isDigit = true ∧
    (toString (e2.nowUs / 1000)).data.all Char.isDigit = true ∧
    e1.nowUs / 1000 < e2.nowUs / 1000 := by
  have hts : ∀ (cfg : JObj) (e : ExtWorld) (m : JObj),
      dictGetD m "name" (.jstr "") = .jstr "$timestamp" →
      dictGetD m "args" (.jarr []) = .jarr [.jstr "unix_ms"] →
      handle_resolver cfg e m = .ok [("value", .jstr (toString (e.nowUs / 1000)))] := by
    intro cfg e m hn ha
    simp [handle_resolver, hn, ha, isStr, truthy, pyIndex0]
    rfl
  exact ⟨hts _ _ _ hn1 ha1, hts _ _ _ hn2 ha2,
    natRepr_all_digits _, natRepr_all_digits _, by omega⟩

/-- C8 witness: at two concrete instants 5 ms apart the resolved numerals
strictly increase. -/
theorem timestamp_unix_ms_monotonic_witness :
    handle_resolver initConfig ext0 mTs = .ok [("value", .jstr (toString (ext0.nowUs / 1000)))] ∧
    handle_resolver initConfig ext1 mTs = .ok [("value", .jstr (toString (ext1.nowUs / 1000)))] ∧
    (toString (ext0.nowUs / 1000)).data.all Char.isDigit = true ∧
    (toString (ext1.nowUs / 1000)).data.all Char.isDigit = true ∧
    ext0.nowUs / 1000 < ext1.nowUs / 1000 :=
  timestamp_unix_ms_monotonic initConfig initConfig ext0 ext1 mTs mTs
    rfl rfl rfl rfl (by decide)

/-- C10: after an init that supplied config prefix P, $env with no
arguments resolves to the empty string, and $env with first argument N
resolves to the value of environment variable P ++ N (N itself when P is
empty, since concatenating the empty prefix is the identity), the empty
string when that variable is unset; an unset and an empty variable are
indistinguishable in the resolved value. -/
theorem env_resolver_uses_prefix
    (e : ExtWorld) (P N : String) (m0 mN : JObj) (restArgs : List JVal)
    (hn0 : dictGetD m0 "name" (.jstr "") = .jstr "$env")
    (ha0 : dictGetD m0 "args" (.jarr []) = .jarr [])
    (hnN : dictGetD mN "name" (.jstr "") = .jstr "$env")
    (haN : dictGetD mN "args" (.jarr []) = .jarr (.jstr N :: restArgs)) :
    handle_init initConfig [("type", .jstr "init"), ("config", .jobj [("prefix", .jstr P)])]
      = .ok (afterInitCfg P, initResult) ∧
    dictFind (afterInitCfg P) "prefix" = some (.jstr P) ∧
    handle_resolver (afterInitCfg P) e m0 = .ok [("value", .jstr "")] ∧
    handle_resolver (afterInitCfg P) e mN =
      .ok [("value", .jstr ((e.env (P ++ N)).getD ""))] ∧
    (e.env (P ++ N) = none → (e.env (P ++ N)).getD "" = "") ∧
    (e.env (P ++ N) = some "" → (e.env (P ++ N)).getD "" = "") := by
  have hAf : afterInitCfg P = [("prefix", .jstr P)] := rfl
  refine ⟨?_, rfl, ?_, ?_, ?_, ?_⟩
  · simp [handle_init, dictGetD, dictFind, truthy, afterInitCfg]
    rfl
  · simp [handle_resolver, hn0, ha0, isStr, truthy]
    rfl
  · rw [hAf]
    have hpfx : dictGetD [("prefix", JVal.jstr P)] "prefix" (.jstr "") = .jstr P := by
      simp [dictGetD, dictFind]
    by_cases hP : P = ""
    · subst hP
      have htP : truthy (.jstr "") = false := rfl
      have hemp : ("" ++ N : String) = N := by simp
      simp [handle_resolver, hnN, haN, hpfx, isStr, truthy, pyIndex0, environGet,
        pyStr, htP, hemp]
      rfl
    · have hPe : P.isEmpty = false := by
        rw [Bool.eq_false_iff]
        intro hh
        exact hP ((String.isEmpty_iff P).mp hh)
      simp [handle_resolver, hnN, haN, hpfx, isStr, truthy, pyIndex0, environGet,
        pyStr, hPe]
      rfl
  · intro h
    rw [h]
    rfl
  · intro h
    rw [h]
    rfl

/-- C10 witness: with prefix TREQ_ and variable name API_KEY the resolver
reads TREQ_API_KEY; with no arguments it resolves to the empty string. -/
theorem env_resolver_uses_prefix_witness :
    handle_init initConfig
      [("type", .jstr "init"), ("config", .jobj [("prefix", .jstr "TREQ_")])]
      = .ok (afterInitCfg "TREQ_", initResult) ∧
    dictFind (afterInitCfg "TREQ_") "prefix" = some (.jstr "TREQ_") ∧
    handle_resolver (afterInitCfg "TREQ_") ext0 mEnv0 = .ok [("value", .jstr "")] ∧
    handle_resolver (afterInitCfg "TREQ_") ext0 mEnvN =
      .ok [("value", .jstr ((ext0.env ("TREQ_" ++ "API_KEY")).getD ""))] ∧
    (ext0.env ("TREQ_" ++ "API_KEY") = none →
      (ext0.env ("TREQ_" ++ "API_KEY")).getD "" = "") ∧
    (ext0.env ("TREQ_" ++ "API_KEY") = some "" →
      (ext0.env ("TREQ_" ++ "API_KEY")).getD "" = "") :=
  env_resolver_uses_prefix ext0 "TREQ_" "API_KEY" mEnv0 mEnvN [] rfl rfl rfl rfl
